import Mathlib

/-!
Shallow embedding of the Up Bank Home Assistant integration
(`custom_components/up-bank/__init__.py`, `sensor.py`).

JSON payloads decoded by `resp.json()` are modelled as `JValue`.
Python `float` arithmetic on the decimal balance strings is modelled
exactly over `ℚ`; for the concrete decimal inputs appearing in the
properties below ("10.50", "-3.20") the IEEE double computation of the
source produces the same equalities, so the rational model is faithful
on those instances.
-/

namespace UpBank

/-- A decoded JSON value (the result of `resp.json()` in the source). -/
inductive JValue where
  | null
  | bool (b : Bool)
  | num (q : ℚ)
  | str (s : String)
  | arr (xs : List JValue)
  | obj (fields : List (String × JValue))
  deriving Repr

/-- Python truthiness (`bool(v)`) for a decoded JSON value: `None`, `False`,
`0`, `""`, `[]`, and an empty mapping are falsy; everything else is truthy. -/
def truthy : JValue → Bool
  | .null => false
  | .bool b => b
  | .num q => decide (q ≠ 0)
  | .str s => decide (s ≠ "")
  | .arr xs => !xs.isEmpty
  | .obj fs => !fs.isEmpty

/-- Dictionary lookup on the field list of an object (first occurrence). -/
def lookupField (fs : List (String × JValue)) (k : String) : Option JValue :=
  (fs.find? (fun p => p.1 == k)).map Prod.snd

/-- Python `v[k]` with a string key, every failure collapsed to `none`:
succeeds only when `v` is a mapping holding key `k` (any other shape raises
`TypeError`/`KeyError`, which the balance loop catches and turns into a
skip). -/
def dictGet? (v : JValue) (k : String) : Option JValue :=
  match v with
  | .obj fs => lookupField fs k
  | _ => none

/-- Numeric value of a list of decimal digit characters. -/
def natOfDigits (cs : List Char) : ℕ :=
  cs.foldl (fun n c => 10 * n + (c.toNat - 48)) 0

/-- Split an optional leading sign; returns (isNegative, rest). -/
def splitSign : List Char → Bool × List Char
  | '-' :: rest => (true, rest)
  | '+' :: rest => (false, rest)
  | cs => (false, cs)

/-- Strip leading and trailing whitespace from a character list. -/
def stripWS (cs : List Char) : List Char :=
  ((cs.dropWhile Char.isWhitespace).reverse.dropWhile Char.isWhitespace).reverse

/-- Discrete decomposition of a decimal float literal: sign, integer-part
digits, fractional-part digits with their count, and exponent. -/
structure DecimalParts where
  neg : Bool
  intDigits : ℕ
  fracDigits : ℕ
  fracLen : ℕ
  exp : ℤ
  deriving Repr, DecidableEq

/-- Exponent suffix of a float literal: optional sign then at least one
digit, consuming the whole remainder. -/
def parseExponent (cs : List Char) : Option ℤ :=
  let p := splitSign cs
  if p.2.isEmpty then none
  else if p.2.all Char.isDigit then
    some (if p.1 then -(natOfDigits p.2 : ℤ) else (natOfDigits p.2 : ℤ))
  else none

/-- Mantissa and optional exponent of a float literal (after the sign):
`digits [. digits] [(e|E) exp]` with at least one digit in the mantissa. -/
def parseMantissa (neg : Bool) (cs : List Char) : Option DecimalParts :=
  let intPart := cs.takeWhile Char.isDigit
  let rest := cs.dropWhile Char.isDigit
  match rest with
  | [] => if intPart.isEmpty then none else some ⟨neg, natOfDigits intPart, 0, 0, 0⟩
  | '.' :: rest2 =>
    let fracPart := rest2.takeWhile Char.isDigit
    let rest3 := rest2.dropWhile Char.isDigit
    if intPart.isEmpty && fracPart.isEmpty then none
    else
      match rest3 with
      | [] => some ⟨neg, natOfDigits intPart, natOfDigits fracPart, fracPart.length, 0⟩
      | 'e' :: es =>
        (parseExponent es).map
          (fun e => ⟨neg, natOfDigits intPart, natOfDigits fracPart, fracPart.length, e⟩)
      | 'E' :: es =>
        (parseExponent es).map
          (fun e => ⟨neg, natOfDigits intPart, natOfDigits fracPart, fracPart.length, e⟩)
      | _ => none
  | 'e' :: es =>
    if intPart.isEmpty then none
    else (parseExponent es).map (fun e => ⟨neg, natOfDigits intPart, 0, 0, e⟩)
  | 'E' :: es =>
    if intPart.isEmpty then none
    else (parseExponent es).map (fun e => ⟨neg, natOfDigits intPart, 0, 0, e⟩)
  | _ => none

/-- Discrete part of `float(s)`: strip whitespace, split the sign, parse
mantissa and exponent. -/
def parseDecimalCore (cs : List Char) : Option DecimalParts :=
  let p := splitSign (stripWS cs)
  parseMantissa p.1 p.2

/-- Numeric value of a decomposed decimal literal. -/
def partsToRat (d : DecimalParts) : ℚ :=
  (if d.neg then (-1 : ℚ) else 1) *
    ((d.intDigits : ℚ) + (d.fracDigits : ℚ) / (10 : ℚ) ^ d.fracLen) * (10 : ℚ) ^ d.exp

/-- Python `float(s)` on a finite decimal literal string: optional
whitespace, optional sign, digits with optional fractional part and
optional exponent.  Inputs outside this grammar (such as "not-a-number")
fail to parse. -/
def pyFloatOfString (s : String) : Option ℚ :=
  (parseDecimalCore s.data).map partsToRat

/-- Python `float(v)` applied to a decoded JSON value: numbers pass
through, booleans coerce to 0/1, strings are parsed as decimal literals,
everything else raises (modelled as `none`). -/
def pyFloatVal : JValue → Option ℚ
  | .num q => some q
  | .bool b => some (if b then 1 else 0)
  | .str s => pyFloatOfString s
  | _ => none

/-- The body of the balance loop: `float(a["attributes"]["balance"]["value"])`
with every exception caught and turned into a skip (`none`). -/
def tryBalance (a : JValue) : Option ℚ :=
  (((dictGet? a "attributes").bind
      (fun b => dictGet? b "balance")).bind
      (fun b => dictGet? b "value")).bind pyFloatVal

/-- A Python runtime exception raised by the integration code itself
(as opposed to the deliberate `UpdateFailed`). -/
inductive PyErr where
  | attributeError
  | typeError
  | keyError
  | indexError
  deriving Repr, DecidableEq

/-- One line of the extraction block, e.g.
`accounts = accounts_resp.get("data") or []`: `.get` on a non-mapping
raises `AttributeError`; an absent key yields `None`; `or []` replaces any
falsy value (absent, `None`, `[]`, `""`, `0`, ...) by the empty list while
a truthy value of any shape is kept as-is. -/
def getDataOrEmpty (resp : JValue) : Except PyErr JValue :=
  match resp with
  | .obj fs =>
    let d := (lookupField fs "data").getD .null
    .ok (if truthy d then d else .arr [])
  | _ => .error .attributeError

/-- Python iteration `for a in v`: lists yield their elements, strings
their characters (as one-character strings), mappings their keys; any
other value raises `TypeError`. -/
def iterElems : JValue → Except PyErr (List JValue)
  | .arr xs => .ok xs
  | .str s => .ok (s.data.map (fun c => .str (String.mk [c])))
  | .obj fs => .ok (fs.map (fun p => .str p.1))
  | _ => .error .typeError

/-- Python `len(v)`: defined for lists, strings and mappings; any other
value raises `TypeError`. -/
def pyLen : JValue → Except PyErr ℕ
  | .arr xs => .ok xs.length
  | .str s => .ok s.length
  | .obj fs => .ok fs.length
  | _ => .error .typeError

/-- The balance accumulation loop: entries whose
`["attributes"]["balance"]["value"]` chain or `float` conversion fails are
skipped (`except Exception: continue`); the rest are summed. -/
def totalBalance (elems : List JValue) : ℚ :=
  (elems.filterMap tryBalance).sum

/-- The derived aggregates of a snapshot. -/
structure Summary where
  total_balance : ℚ
  account_count : ℕ
  transaction_count : ℕ
  deriving Repr

/-- The dictionary returned by `UpDataCoordinator._async_update_data` on
success. -/
structure Snapshot where
  accounts : JValue
  transactions : JValue
  categories : JValue
  tags : JValue
  summary : Summary
  deriving Repr

/-- The normalization part of `_async_update_data` (everything after the
`gather`), in the source's evaluation order: extract the four `data`
collections, run the balance loop over `accounts`, then build the result
dictionary whose summary holds `len(accounts)` and `len(transactions)`.
Exceptions raised here are NOT wrapped in `UpdateFailed` (they escape the
`try` around the gather). -/
def updBuild (ra rt rc rg : JValue) : Except PyErr Snapshot :=
  match getDataOrEmpty ra with
  | .error e => .error e
  | .ok accounts =>
    match getDataOrEmpty rt with
    | .error e => .error e
    | .ok transactions =>
      match getDataOrEmpty rc with
      | .error e => .error e
      | .ok categories =>
        match getDataOrEmpty rg with
        | .error e => .error e
        | .ok tags =>
          match iterElems accounts with
          | .error e => .error e
          | .ok elems =>
            match pyLen accounts with
            | .error e => .error e
            | .ok ac =>
              match pyLen transactions with
              | .error e => .error e
              | .ok tc =>
                .ok ⟨accounts, transactions, categories, tags,
                  ⟨totalBalance elems, ac, tc⟩⟩

/-- Outcome of one `UpApi._get`, i.e. of one of the four fetches. -/
inductive GetErr where
  | updateFailed (msg : String)
  | jsonDecodeError
  | transportError
  deriving Repr, DecidableEq

/-- One HTTP exchange as seen by `UpApi._get` after the request returned:
status code, body text, and the result of attempting to decode the body as
JSON (`none` when the body is not well-formed). -/
structure HttpResponse where
  status : ℕ
  text : String
  json? : Option JValue

/-- The exact message raised for a 401 response. -/
def unauthorizedMsg : String := "Unauthorized (401). Check your Up API token."

/-- The message raised for any other non-success status:
`f"Up API error {resp.status}: {text[:200]}"`. -/
def apiErrorMsg (status : ℕ) (body : String) : String :=
  "Up API error " ++ toString status ++ ": " ++ body.take 200

/-- `UpApi._get` response handling: 401 raises `UpdateFailed` with the
dedicated message, any other status at least 400 raises `UpdateFailed`
with the status and a 200-character body snippet, and only then is the
body decoded as JSON (a malformed body raises a decode error distinct
from `UpdateFailed`). -/
def upGet (r : HttpResponse) : Except GetErr JValue :=
  if r.status = 401 then .error (.updateFailed unauthorizedMsg)
  else if 400 ≤ r.status then
    .error (.updateFailed (apiErrorMsg r.status r.text))
  else
    match r.json? with
    | some v => .ok v
    | none => .error .jsonDecodeError

/-- Result type of `_async_update_data`: a fetch failure is wrapped in
`UpdateFailed` by the `except` around the gather; an exception escaping
the normalization code is not wrapped. -/
inductive UpdErr where
  | updateFailed
  | buildError (e : PyErr)
  deriving Repr, DecidableEq

/-- `UpDataCoordinator._async_update_data`: gather the four fetches; if any
of them failed, raise `UpdateFailed`; otherwise normalize the payloads. -/
def updData (fa ft fc fg : Except GetErr JValue) : Except UpdErr Snapshot :=
  match fa, ft, fc, fg with
  | .ok ra, .ok rt, .ok rc, .ok rg =>
    match updBuild ra rt rc rg with
    | .ok s => .ok s
    | .error e => .error (.buildError e)
  | _, _, _, _ => .error .updateFailed

/-- The externally observable state of a `DataUpdateCoordinator`:
the published data (`coordinator.data`) and the `last_update_success`
flag. -/
structure CoordState where
  last_snapshot : Option Snapshot
  last_update_success : Bool
  deriving Repr

/-- Modelled from the spec: the host's `DataUpdateCoordinator` refresh
step is not part of this repository; per the spec a refresh either fully
succeeds and replaces the published snapshot, or fails and leaves
`last_snapshot` untouched while setting `last_refresh_succeeded = false`.
The repository contributes `_async_update_data` (here `updData`). -/
def refreshStep (st : CoordState) (fa ft fc fg : Except GetErr JValue) : CoordState :=
  match updData fa ft fc fg with
  | .ok s => ⟨some s, true⟩
  | .error _ => ⟨st.last_snapshot, false⟩

/-- Modelled from the spec: the host scheduler's single-flight refresh
guard is not part of this repository; per the spec a trigger while a
cycle is `Refreshing` is a no-op — not queued, not an error — and a cycle
that does start issues one burst of four requests (the gather in
`_async_update_data`). -/
structure SchedState where
  in_flight : Bool
  requests : ℕ
  queued : ℕ
  reported_errors : ℕ
  deriving Repr, DecidableEq

/-- Modelled from the spec: a refresh trigger arriving at the scheduler.
If a cycle is already in flight the trigger does nothing; otherwise it
starts a cycle, issuing its burst of four requests. -/
def trigger (s : SchedState) : SchedState :=
  if s.in_flight then s
  else { s with in_flight := true, requests := s.requests + 4 }

/-- Outcome of `async_setup_entry`: `ConfigEntryNotReady` for a missing
token or a failed first refresh, or the ready coordinator together with
its refresh interval in minutes. -/
inductive SetupErr where
  | notReadyNoToken
  | notReadyFirstRefresh
  deriving Repr, DecidableEq

/-- `DEFAULT_REFRESH_MIN` from the source. -/
def DEFAULT_REFRESH_MIN : Int := 10

/-- Python `x or y` on optional token strings: an absent or empty left
operand falls through to the right one. -/
def pyOrStr (a b : Option String) : Option String :=
  match a with
  | some s => if s = "" then b else some s
  | none => b

/-- The token lookup chain
`entry.data.get(CONF_API_KEY) or entry.data.get("token") or entry.data.get("api_key")`. -/
def resolveToken (confApiKey tokenKey apiKey : Option String) : Option String :=
  pyOrStr confApiKey (pyOrStr tokenKey apiKey)

/-- Truthiness of the resolved token (`if not token: raise ...`). -/
def tokenTruthy : Option String → Bool
  | none => false
  | some s => decide (s ≠ "")

/-- Validation of the `refresh_minutes` option: absent values (a stored
non-integer is modelled as absent, since both coerce) and non-positive
integers fall back to the default of 10 minutes. -/
def effectiveRefreshMin (opt : Option Int) : Int :=
  match opt with
  | none => DEFAULT_REFRESH_MIN
  | some n => if n ≤ 0 then DEFAULT_REFRESH_MIN else n

/-- `async_setup_entry`: resolve the token (not-ready when falsy),
validate the interval option, run the first refresh from the empty
coordinator state, and report not-ready unless it fully succeeded
(`async_config_entry_first_refresh` plus the `last_update_success` check;
the first-refresh gate of the host is modelled from the spec). -/
def asyncSetupEntry (confApiKey tokenKey apiKey : Option String)
    (refreshOpt : Option Int) (fa ft fc fg : Except GetErr JValue) :
    Except SetupErr (CoordState × Int) :=
  if tokenTruthy (resolveToken confApiKey tokenKey apiKey) = false then
    .error .notReadyNoToken
  else
    let m := effectiveRefreshMin refreshOpt
    let st := refreshStep ⟨none, false⟩ fa ft fc fg
    if st.last_update_success then .ok (st, m) else .error .notReadyFirstRefresh

/-- The snapshot a consumer can read from the stored entry data
(`hass.data[DOMAIN][entry_id]["coordinator"].data`), absent when the
entry is not set up. -/
def currentSnapshot (entry : Option (CoordState × Int)) : Option Snapshot :=
  match entry with
  | some p => p.1.last_snapshot
  | none => none

/-- Modelled from the spec: `_async_update_listener` reloads the entry on
an options change, and a reload is unload followed by setup — the stored
coordinator (with its cached snapshot) is dropped and a fresh coordinator
is built from the new options, gated on its own first refresh.  The old
entry state is structurally discarded. -/
def reloadEntry (confApiKey tokenKey apiKey : Option String)
    (newRefreshOpt : Option Int) (fa ft fc fg : Except GetErr JValue)
    (_old : Option (CoordState × Int)) : Option (CoordState × Int) :=
  match asyncSetupEntry confApiKey tokenKey apiKey newRefreshOpt fa ft fc fg with
  | .ok p => some p
  | .error _ => none

/-- `_LatestTxnBase._latest`: `tx[0] if tx else None` on the snapshot's
transactions value — falsy yields `None`; indexing a truthy
non-subscriptable value raises. -/
def pyLatest (txs : JValue) : Except PyErr (Option JValue) :=
  if truthy txs then
    match txs with
    | .arr (x :: _) => .ok (some x)
    | .arr [] => .error .indexError
    | .str s =>
      match s.data with
      | c :: _ => .ok (some (.str (String.mk [c])))
      | [] => .error .indexError
    | .obj _ => .error .keyError
    | _ => .error .typeError
  else .ok none

/-- Python `v.get(k, d)`: mapping lookup with a default, raising
`AttributeError` when `v` is not a mapping. -/
def getWithDefault (v : JValue) (k : String) (d : JValue) : Except PyErr JValue :=
  match v with
  | .obj fs => .ok ((lookupField fs k).getD d)
  | _ => .error .attributeError

/-- Python `x or d` on decoded values. -/
def orDefault (x d : JValue) : JValue :=
  if truthy x then x else d

/-- The join in `UpLatestTxnTagsSensor.native_value`:
`", ".join([d.get("id", "") for d in data if isinstance(d, dict)])` —
non-mapping entries are filtered out, and joining requires every kept
`d.get("id", "")` to be a string. -/
def joinTagIds (ds : List JValue) : Except PyErr String :=
  ((ds.filter (fun d => match d with | .obj _ => true | _ => false)).mapM
    (fun d =>
      (match getWithDefault d "id" (.str "") with
       | .ok (.str s) => .ok s
       | .ok _ => .error PyErr.typeError
       | .error e => .error e : Except PyErr String))).map (String.intercalate ", ")

/-- `UpLatestTxnTagsSensor.native_value` as a function of the snapshot's
transactions value: absent latest transaction yields `None`; otherwise
`relationships`, `tags` and `data` are looked up with falsy values
defaulted, an empty `data` yields the empty string, and a non-empty one
the comma-separated tag ids. -/
def latestTxnTags (txs : JValue) : Except PyErr (Option String) :=
  match pyLatest txs with
  | .error e => .error e
  | .ok none => .ok none
  | .ok (some lt) =>
    match getWithDefault lt "relationships" .null with
    | .error e => .error e
    | .ok rel0 =>
      match getWithDefault (orDefault rel0 (.obj [])) "tags" .null with
      | .error e => .error e
      | .ok tags0 =>
        match getWithDefault (orDefault tags0 (.obj [])) "data" .null with
        | .error e => .error e
        | .ok data0 =>
          let dt := orDefault data0 (.arr [])
          if truthy dt = false then .ok (some "")
          else
            match iterElems dt with
            | .error e => .error e
            | .ok elems =>
              match joinTagIds elems with
              | .error e => .error e
              | .ok s => .ok (some s)

/-- A payload whose `data` key holds the given list. -/
def dataPayload (xs : List JValue) : JValue := .obj [("data", .arr xs)]

/-- A payload mapping with no `data` key at all. -/
def emptyPayload : JValue := .obj []

/-- An account entity with the given balance value string. -/
def accEntity (b : String) : JValue :=
  .obj [("attributes", .obj [("balance", .obj [("value", .str b)])])]

/-- The accounts payload of the spec's balance example:
balances "10.50", "-3.20", "not-a-number". -/
def accountsPayloadEx : JValue :=
  dataPayload [accEntity "10.50", accEntity "-3.20", accEntity "not-a-number"]

/-- A transaction whose `relationships.tags.data` is `[{id:"a"},{id:"b"}]`. -/
def txnAB : JValue :=
  .obj [("relationships", .obj [("tags", .obj [("data",
    .arr [.obj [("id", .str "a")], .obj [("id", .str "b")]])])])]

/-- A transaction whose `relationships.tags.data` is the empty list. -/
def txnNoTags : JValue :=
  .obj [("relationships", .obj [("tags", .obj [("data", .arr [])])])]

/-- The snapshot built from four payloads with empty `data` collections. -/
def snapEmpty : Snapshot :=
  ⟨.arr [], .arr [], .arr [], .arr [], ⟨totalBalance [], 0, 0⟩⟩

/-- A payload that is a mapping whose `data` value, if present, is falsy
or a list — the shapes for which the extraction block is total. -/
def dataListOrFalsy (resp : JValue) : Prop :=
  ∃ fs, resp = .obj fs ∧
    (lookupField fs "data" = none ∨
     truthy ((lookupField fs "data").getD .null) = false ∨
     ∃ l, lookupField fs "data" = some (.arr l))

/-- The number of accounts whose balance parses, i.e. the number of
entries contributing to `total_balance`. -/
def contributingCount (xs : List JValue) : ℕ :=
  (xs.filterMap tryBalance).length

/-! Helper lemmas shared by the claim theorems. -/

theorem updData_fail_of_fetch_error {fa ft fc fg : Except GetErr JValue}
    (h : (∃ e, fa = .error e) ∨ (∃ e, ft = .error e) ∨
         (∃ e, fc = .error e) ∨ (∃ e, fg = .error e)) :
    updData fa ft fc fg = .error .updateFailed := by
  cases fa <;> cases ft <;> cases fc <;> cases fg <;> simp_all [updData]

theorem getDataOrEmpty_listPayload (xs : List JValue) :
    getDataOrEmpty (dataPayload xs) = .ok (.arr xs) := by
  cases xs <;> simp [dataPayload, getDataOrEmpty, lookupField, List.find?, truthy]

theorem updBuild_listPayloads (xs ts cs gs : List JValue) :
    updBuild (dataPayload xs) (dataPayload ts) (dataPayload cs) (dataPayload gs) =
      .ok ⟨.arr xs, .arr ts, .arr cs, .arr gs,
        ⟨(xs.filterMap tryBalance).sum, xs.length, ts.length⟩⟩ := by
  simp [updBuild, getDataOrEmpty_listPayload, iterElems, pyLen, totalBalance]

theorem length_filterMap_lt_of_mem_none {α β : Type} (f : α → Option β) :
    ∀ (xs : List α) (a : α), a ∈ xs → f a = none →
      (xs.filterMap f).length < xs.length := by
  intro xs
  induction xs with
  | nil => intro a ha _; cases ha
  | cons y ys ih =>
    intro a ha hf
    rcases List.mem_cons.mp ha with rfl | hmem
    · rw [List.filterMap_cons, hf]
      exact Nat.lt_succ_of_le (List.length_filterMap_le _ _)
    · have hlt := ih a hmem hf
      rw [List.filterMap_cons]
      cases hfy : f y
      · exact Nat.lt_succ_of_lt hlt
      · simpa using Nat.succ_lt_succ hlt

theorem getDataOrEmpty_of_wellshaped {resp : JValue} (h : dataListOrFalsy resp) :
    ∃ l, getDataOrEmpty resp = .ok (.arr l) := by
  obtain ⟨fs, rfl, hcase⟩ := h
  rcases hcase with hnone | hfalsy | ⟨l, hl⟩
  · exact ⟨[], by simp [getDataOrEmpty, hnone, truthy]⟩
  · exact ⟨[], by simp [getDataOrEmpty, hfalsy]⟩
  · by_cases ht : truthy (.arr l)
    · exact ⟨l, by simp [getDataOrEmpty, hl, ht]⟩
    · exact ⟨[], by simp [getDataOrEmpty, hl, ht]⟩

theorem tryBalance_1050 : tryBalance (accEntity "10.50") = some ((21 : ℚ)/2) := by
  have h : parseDecimalCore "10.50".data = some ⟨false, 10, 50, 2, 0⟩ := by decide
  show pyFloatOfString "10.50" = some ((21 : ℚ)/2)
  rw [pyFloatOfString, h]
  norm_num [partsToRat]

theorem tryBalance_neg320 : tryBalance (accEntity "-3.20") = some (-(16 : ℚ)/5) := by
  have h : parseDecimalCore "-3.20".data = some ⟨true, 3, 20, 2, 0⟩ := by decide
  show pyFloatOfString "-3.20" = some (-(16 : ℚ)/5)
  rw [pyFloatOfString, h]
  norm_num [partsToRat]

theorem tryBalance_nan : tryBalance (accEntity "not-a-number") = none := by
  have h : parseDecimalCore "not-a-number".data = none := by decide
  show pyFloatOfString "not-a-number" = none
  rw [pyFloatOfString, h]
  rfl

theorem apiErrorMsg_ne_unauthorized (st : ℕ) (body : String) :
    apiErrorMsg st body ≠ unauthorizedMsg := by
  intro h
  have hd : (apiErrorMsg st body).data = unauthorizedMsg.data := congrArg String.data h
  rw [apiErrorMsg, String.data_append, String.data_append, String.data_append] at hd
  have h1 : "Up API error ".data
      = ['U', 'p', ' ', 'A', 'P', 'I', ' ', 'e', 'r', 'r', 'o', 'r', ' '] := rfl
  have h2 : unauthorizedMsg.data
      = ['U', 'n', 'a', 'u', 't', 'h', 'o', 'r', 'i', 'z', 'e', 'd', ' ', '(', '4', '0', '1',
         ')', '.', ' ', 'C', 'h', 'e', 'c', 'k', ' ', 'y', 'o', 'u', 'r', ' ', 'U', 'p', ' ',
         'A', 'P', 'I', ' ', 't', 'o', 'k', 'e', 'n', '.'] := rfl
  rw [h1, h2] at hd
  simp at hd

/-! The claim theorems. -/

/-- C1: for every refresh cycle in which any one of the four fetches
(accounts, transactions, categories, tags) fails, `_async_update_data`
raises `UpdateFailed`, and the coordinator's published snapshot after the
cycle equals the snapshot before the cycle (no partial update), for every
combination of which fetch fails. -/
theorem upd_fetch_failure_no_partial_update (st : CoordState)
    (fa ft fc fg : Except GetErr JValue)
    (h : (∃ e, fa = .error e) ∨ (∃ e, ft = .error e) ∨
         (∃ e, fc = .error e) ∨ (∃ e, fg = .error e)) :
    updData fa ft fc fg = .error .updateFailed ∧
    (refreshStep st fa ft fc fg).last_snapshot = st.last_snapshot := by
  have hu := updData_fail_of_fetch_error h
  exact ⟨hu, by simp [refreshStep, hu]⟩

theorem upd_fetch_failure_no_partial_update_witness :
    updData (.error .transportError) (.ok emptyPayload) (.ok emptyPayload)
        (.ok emptyPayload) = .error .updateFailed ∧
    (refreshStep ⟨some snapEmpty, true⟩ (.error .transportError) (.ok emptyPayload)
        (.ok emptyPayload) (.ok emptyPayload)).last_snapshot = some snapEmpty :=
  upd_fetch_failure_no_partial_update ⟨some snapEmpty, true⟩ _ _ _ _
    (Or.inl ⟨.transportError, rfl⟩)

/-- C2 counterexample: the snapshot-building step is not total on raw
payloads: a payload whose `data` key holds the truthy non-sequence value
`true` is kept as-is by `... or []` and the balance loop then raises
`TypeError`, so the build does raise instead of returning a best-effort
snapshot with that collection treated as empty. -/
theorem build_raises_on_truthy_nonlist_data :
    updBuild (.obj [("data", .bool true)]) emptyPayload emptyPayload emptyPayload
      = .error .typeError := rfl

/-- C2 (amended): for every quadruple of raw payloads each of which is a
mapping whose `data` value is absent, falsy, or a list, the
snapshot-building step never raises and returns a Snapshot; an absent or
falsy `data` is treated as the empty collection.  (A truthy non-list
`data` value is kept as-is by `... or []` and can make the build raise.) -/
theorem build_never_raises_on_wellshaped (ra rt rc rg : JValue)
    (h1 : dataListOrFalsy ra) (h2 : dataListOrFalsy rt)
    (h3 : dataListOrFalsy rc) (h4 : dataListOrFalsy rg) :
    (∃ s, updBuild ra rt rc rg = .ok s) ∧
    (∀ fs, (lookupField fs "data" = none ∨
        truthy ((lookupField fs "data").getD .null) = false) →
      getDataOrEmpty (.obj fs) = .ok (.arr [])) := by
  constructor
  · obtain ⟨la, hla⟩ := getDataOrEmpty_of_wellshaped h1
    obtain ⟨lb, hlb⟩ := getDataOrEmpty_of_wellshaped h2
    obtain ⟨lc, hlc⟩ := getDataOrEmpty_of_wellshaped h3
    obtain ⟨lg, hlg⟩ := getDataOrEmpty_of_wellshaped h4
    exact ⟨⟨.arr la, .arr lb, .arr lc, .arr lg,
        ⟨totalBalance la, la.length, lb.length⟩⟩,
      by simp [updBuild, hla, hlb, hlc, hlg, iterElems, pyLen]⟩
  · intro fs hc
    rcases hc with hnone | hfalsy
    · simp [getDataOrEmpty, hnone, truthy]
    · simp [getDataOrEmpty, hfalsy]

theorem build_never_raises_on_wellshaped_witness :
    (∃ s, updBuild (dataPayload [accEntity "10.50"]) emptyPayload
        (.obj [("data", .null)]) (dataPayload []) = .ok s) ∧
    getDataOrEmpty (.obj []) = .ok (.arr []) :=
  ⟨(build_never_raises_on_wellshaped _ _ _ _
      ⟨[("data", .arr [accEntity "10.50"])], rfl, Or.inr (Or.inr ⟨[accEntity "10.50"], rfl⟩)⟩
      ⟨[], rfl, Or.inl rfl⟩
      ⟨[("data", .null)], rfl, Or.inr (Or.inl rfl)⟩
      ⟨[("data", .arr [])], rfl, Or.inr (Or.inr ⟨[], rfl⟩)⟩).1,
   (build_never_raises_on_wellshaped (dataPayload [accEntity "10.50"]) emptyPayload
      (.obj [("data", .null)]) (dataPayload [])
      ⟨[("data", .arr [accEntity "10.50"])], rfl, Or.inr (Or.inr ⟨[accEntity "10.50"], rfl⟩)⟩
      ⟨[], rfl, Or.inl rfl⟩
      ⟨[("data", .null)], rfl, Or.inr (Or.inl rfl)⟩
      ⟨[("data", .arr [])], rfl, Or.inr (Or.inr ⟨[], rfl⟩)⟩).2 [] (Or.inl rfl)⟩

/-- C3: for every successfully built snapshot, `summary.account_count`
equals the length of the snapshot's accounts sequence and
`summary.transaction_count` equals the length of its transactions
sequence (lengths taken by the same `len` the source applies). -/
theorem summary_counts_match_collections (ra rt rc rg : JValue) (s : Snapshot)
    (h : updBuild ra rt rc rg = .ok s) :
    pyLen s.accounts = .ok s.summary.account_count ∧
    pyLen s.transactions = .ok s.summary.transaction_count := by
  unfold updBuild at h
  repeat' split at h
  all_goals (try (cases h))
  all_goals simp_all

theorem summary_counts_match_collections_witness :
    pyLen snapEmpty.accounts = .ok snapEmpty.summary.account_count ∧
    pyLen snapEmpty.transactions = .ok snapEmpty.summary.transaction_count :=
  summary_counts_match_collections emptyPayload emptyPayload emptyPayload
    emptyPayload snapEmpty rfl

/-- C4: for the accounts payload with balance strings "10.50", "-3.20"
and "not-a-number", the computed `total_balance` equals 7.30 and the
unparsable entry is skipped from the sum without failing the cycle; in
general, for any accounts list, the build succeeds and sums exactly the
parsable balances, so an unparsable balance never aborts the build. -/
theorem total_balance_skips_unparsable :
    (∃ s, updBuild accountsPayloadEx (dataPayload []) (dataPayload [])
        (dataPayload []) = .ok s ∧
      s.summary.total_balance = (7.30 : ℚ) ∧ s.summary.account_count = 3) ∧
    tryBalance (accEntity "not-a-number") = none ∧
    (∀ xs : List JValue,
      updBuild (dataPayload xs) (dataPayload []) (dataPayload []) (dataPayload []) =
        .ok ⟨.arr xs, .arr [], .arr [], .arr [],
          ⟨(xs.filterMap tryBalance).sum, xs.length, 0⟩⟩) := by
  refine ⟨⟨_, updBuild_listPayloads
      [accEntity "10.50", accEntity "-3.20", accEntity "not-a-number"] [] [] [],
      ?_, rfl⟩, tryBalance_nan, fun xs => updBuild_listPayloads xs [] [] []⟩
  show ([accEntity "10.50", accEntity "-3.20", accEntity "not-a-number"].filterMap
      tryBalance).sum = (7.30 : ℚ)
  rw [List.filterMap_cons, tryBalance_1050, List.filterMap_cons, tryBalance_neg320,
    List.filterMap_cons, tryBalance_nan]
  norm_num

/-- C5: at most one refresh cycle is in flight at any time: a refresh
trigger arriving while a cycle is already running is a no-op — not
queued, not reported as an error — and in the two-trigger scenario
exactly one fetch burst of four requests occurs, not two.  (The
single-flight guard lives in the host coordinator and is modelled from
the spec.) -/
theorem refresh_single_flight :
    (∀ s : SchedState, s.in_flight = true → trigger s = s) ∧
    trigger (trigger ⟨false, 0, 0, 0⟩) = ⟨true, 4, 0, 0⟩ := by
  constructor
  · intro s h
    simp [trigger, h]
  · decide

theorem refresh_single_flight_witness :
    trigger ⟨true, 4, 0, 0⟩ = ⟨true, 4, 0, 0⟩ :=
  refresh_single_flight.1 ⟨true, 4, 0, 0⟩ rfl

/-- C6: if the first-ever refresh cycle of a coordinator fails (any of
the four fetches erroring, e.g. with a 401), the coordinator never
publishes a snapshot and `async_setup_entry` reports not-ready instead
of completing with an empty or absent snapshot. -/
theorem first_cycle_failure_reports_not_ready (confA tokenKey apiKey : Option String)
    (ropt : Option Int) (fa ft fc fg : Except GetErr JValue)
    (htok : tokenTruthy (resolveToken confA tokenKey apiKey) = true)
    (h : (∃ e, fa = .error e) ∨ (∃ e, ft = .error e) ∨
         (∃ e, fc = .error e) ∨ (∃ e, fg = .error e)) :
    asyncSetupEntry confA tokenKey apiKey ropt fa ft fc fg
      = .error .notReadyFirstRefresh ∧
    (refreshStep ⟨none, false⟩ fa ft fc fg).last_snapshot = none := by
  have hu := updData_fail_of_fetch_error h
  exact ⟨by simp [asyncSetupEntry, htok, refreshStep, hu], by simp [refreshStep, hu]⟩

theorem first_cycle_failure_reports_not_ready_witness :
    asyncSetupEntry (some "t") none none none
        (.error (.updateFailed unauthorizedMsg)) (.ok emptyPayload)
        (.ok emptyPayload) (.ok emptyPayload) = .error .notReadyFirstRefresh ∧
    (refreshStep ⟨none, false⟩ (.error (.updateFailed unauthorizedMsg))
        (.ok emptyPayload) (.ok emptyPayload) (.ok emptyPayload)).last_snapshot
      = none :=
  first_cycle_failure_reports_not_ready (some "t") none none none _ _ _ _ rfl
    (Or.inl ⟨.updateFailed unauthorizedMsg, rfl⟩)

/-- C7 counterexample: an interval change triggers a full entry reload,
which discards the stored coordinator and its cached snapshot; with the
old interval 10 and new interval 1, if the new coordinator's first fetch
fails, no snapshot is available after the transition, so the existing
snapshot did not remain available and the cached data was lost. -/
theorem interval_change_drops_cached_snapshot :
    currentSnapshot (some (⟨some snapEmpty, true⟩, 10)) = some snapEmpty ∧
    currentSnapshot (reloadEntry (some "t") none none (some 1)
      (.error .transportError) (.ok emptyPayload) (.ok emptyPayload)
      (.ok emptyPayload) (some (⟨some snapEmpty, true⟩, 10))) = none :=
  ⟨rfl, rfl⟩

/-- C7 (amended): when the refresh interval option changes, the entry is
reloaded: a fresh coordinator is built with the new interval, so the next
scheduled refresh uses the new interval, and the reload result is
independent of the previous entry state — the old snapshot is discarded.
Data is available after the transition only through the new coordinator's
first refresh: if it succeeds consumers see the freshly built snapshot;
if it fails, setup reports not-ready and no snapshot is available. -/
theorem interval_change_reload_uses_new_interval (old : Option (CoordState × Int))
    (n : Int) (hn : 0 < n) (ra rt rc rg : JValue) (s : Snapshot)
    (hb : updBuild ra rt rc rg = .ok s) :
    reloadEntry (some "t") none none (some n) (.ok ra) (.ok rt) (.ok rc) (.ok rg) old
      = some (⟨some s, true⟩, n) ∧
    (∀ old2, reloadEntry (some "t") none none (some n) (.ok ra) (.ok rt) (.ok rc)
        (.ok rg) old
      = reloadEntry (some "t") none none (some n) (.ok ra) (.ok rt) (.ok rc)
        (.ok rg) old2) := by
  have hm : effectiveRefreshMin (some n) = n := by
    simp [effectiveRefreshMin]
    omega
  refine ⟨?_, fun old2 => rfl⟩
  simp [reloadEntry, asyncSetupEntry, refreshStep, updData, hb, tokenTruthy,
    resolveToken, pyOrStr, hm]

theorem interval_change_reload_uses_new_interval_witness :
    reloadEntry (some "t") none none (some 1) (.ok emptyPayload) (.ok emptyPayload)
        (.ok emptyPayload) (.ok emptyPayload) (some (⟨some snapEmpty, true⟩, 10))
      = some (⟨some snapEmpty, true⟩, 1) ∧
    (∀ old2, reloadEntry (some "t") none none (some 1) (.ok emptyPayload)
        (.ok emptyPayload) (.ok emptyPayload) (.ok emptyPayload)
        (some (⟨some snapEmpty, true⟩, 10))
      = reloadEntry (some "t") none none (some 1) (.ok emptyPayload)
        (.ok emptyPayload) (.ok emptyPayload) (.ok emptyPayload) old2) :=
  interval_change_reload_uses_new_interval (some (⟨some snapEmpty, true⟩, 10)) 1
    (by norm_num) emptyPayload emptyPayload emptyPayload emptyPayload snapEmpty rfl

/-- C8: `UpApi._get` signals each failure condition distinctly: a 401
response raises the dedicated unauthorized message, any other non-success
status raises the generic remote-error message (never equal to the
unauthorized one), JSON decoding is attempted only after the status
checks (the outcome for a non-success status is independent of whether
the body decodes), and a decode failure occurs only for a success status
with an undecodable body, as an error kind distinct from remote errors. -/
theorem api_get_distinct_failure_kinds :
    (∀ r : HttpResponse, r.status = 401 →
      upGet r = .error (.updateFailed unauthorizedMsg)) ∧
    (∀ r : HttpResponse, 400 ≤ r.status → r.status ≠ 401 →
      upGet r = .error (.updateFailed (apiErrorMsg r.status r.text)) ∧
      upGet r ≠ .error (.updateFailed unauthorizedMsg)) ∧
    (∀ (r : HttpResponse) (j : Option JValue), 400 ≤ r.status →
      upGet r = upGet ⟨r.status, r.text, j⟩) ∧
    (∀ r : HttpResponse, upGet r = .error .jsonDecodeError →
      r.status < 400 ∧ r.json? = none) := by
  refine ⟨?_, ?_, ?_, ?_⟩
  · intro r h
    simp [upGet, h]
  · intro r h400 h401
    constructor
    · simp [upGet, h400, h401]
    · simp only [upGet, h400, if_neg h401, if_pos]
      simp [apiErrorMsg_ne_unauthorized]
  · intro r j h400
    by_cases h401 : r.status = 401 <;> simp [upGet, h400, h401]
  · intro r h
    by_cases h401 : r.status = 401
    · simp [upGet, h401] at h
    · by_cases h400 : 400 ≤ r.status
      · simp [upGet, h400, h401] at h
      · refine ⟨by omega, ?_⟩
        cases hj : r.json? with
        | none => rfl
        | some v => simp [upGet, h400, h401, hj] at h

theorem api_get_distinct_failure_kinds_witness :
    upGet ⟨401, "denied", some .null⟩ = .error (.updateFailed unauthorizedMsg) ∧
    upGet ⟨500, "oops", some .null⟩ ≠ .error (.updateFailed unauthorizedMsg) ∧
    upGet ⟨500, "oops", some .null⟩ = upGet ⟨500, "oops", none⟩ :=
  ⟨api_get_distinct_failure_kinds.1 ⟨401, "denied", some .null⟩ rfl,
   (api_get_distinct_failure_kinds.2.1 ⟨500, "oops", some .null⟩ (by norm_num)
     (by norm_num)).2,
   api_get_distinct_failure_kinds.2.2.1 ⟨500, "oops", some .null⟩ none (by norm_num)⟩

/-- C9: for the latest transaction, the derived tag view maps
`relationships.tags.data = [{id:"a"},{id:"b"}]` to the string "a, b", and
maps an empty `data` list to the empty string, not an absent value. -/
theorem latest_txn_tags_roundtrip :
    latestTxnTags (.arr [txnAB]) = .ok (some "a, b") ∧
    latestTxnTags (.arr [txnNoTags]) = .ok (some "") :=
  ⟨rfl, rfl⟩

/-- C10: an account whose balance value cannot be parsed is excluded from
`total_balance` but still included in the accounts sequence and counted
by `summary.account_count`: for a payload containing at least one
unparsable balance, the number of accounts contributing to the total is
strictly below `account_count`. -/
theorem unparsable_balance_counted_not_summed (xs : List JValue) (a : JValue)
    (ha : a ∈ xs) (hb : tryBalance a = none) (s : Snapshot)
    (hs : updBuild (dataPayload xs) (dataPayload []) (dataPayload [])
        (dataPayload []) = .ok s) :
    s.accounts = .arr xs ∧ contributingCount xs < s.summary.account_count := by
  rw [updBuild_listPayloads] at hs
  cases hs
  exact ⟨rfl, length_filterMap_lt_of_mem_none tryBalance xs a ha hb⟩

theorem unparsable_balance_counted_not_summed_witness :
    Snapshot.accounts ⟨.arr [accEntity "10.50", accEntity "not-a-number"],
        .arr [], .arr [], .arr [],
        ⟨([accEntity "10.50", accEntity "not-a-number"].filterMap tryBalance).sum, 2, 0⟩⟩
      = .arr [accEntity "10.50", accEntity "not-a-number"] ∧
    contributingCount [accEntity "10.50", accEntity "not-a-number"] < 2 :=
  unparsable_balance_counted_not_summed
    [accEntity "10.50", accEntity "not-a-number"] (accEntity "not-a-number")
    (List.mem_cons_of_mem _ (List.mem_singleton_self _)) tryBalance_nan _
    (updBuild_listPayloads [accEntity "10.50", accEntity "not-a-number"] [] [] [])

end UpBank
